import Mathlib

/-!
Verification development for the `lsl_viewpoint` package: a bridge from the
ViewPoint eye-tracker native callback API to an LSL stream.

The embedding models, faithfully to the Python source:
  * `device.py`   — the `ViewPointDevice` shared-state object and its defaults;
  * `callback.py` — the accessor-dispatch helpers (`get_gaze_point`,
    `get_gaze_angle`, `get_gaze_velocity`, `get_pupil_property`), the channel
    list `_CH_NAMES`, and the event `callback`;
  * `buffer.py`   — the `Buffer` chunk accumulator;
  * `config.py`   — `load_config` / `write_config`.

External collaborators (the native DLL's accessor functions, the LSL outlet,
`configparser`, the filesystem) are modelled as explicit environments:
the DLL is an oracle supplying the value each accessor writes through its out
pointer (the integer status codes the Python code ignores are not modelled),
the outlet records pushed samples, and the filesystem is a partial map from
file names to parsed configuration contents.  Python floats are modelled as
rationals; Python exceptions are modelled with `Except`.
-/

/-- Mirrors `VPX_RealPoint` (`device.py`): a 2D point. -/
structure RealPoint where
  x : ℚ
  y : ℚ
deriving DecidableEq

/-- Mirrors `VPX_RealRect` (`device.py`): a rectangle. -/
structure RealRect where
  left : ℚ
  top : ℚ
  right : ℚ
  bottom : ℚ
deriving DecidableEq

/-- A per-eye pair of slots, mirroring the `{"A": ..., "B": ...}` dictionaries
of `ViewPointDevice`. -/
structure EyePair (α : Type) where
  A : α
  B : α
deriving DecidableEq

/-- Write into the slot selected by the Python string key, as `variable[eye]`
does for `eye` in `("A", "B")`. -/
def setEye {α : Type} (p : EyePair α) (eye : String) (v : α) : EyePair α :=
  if eye = "A" then { p with A := v } else { p with B := v }

/-- Mirrors `ViewPointDevice.__init__` (`device.py`): one mutable slot per
(measurement, eye).  `pupil_aspect` models the source field
`pupil_aspect_ratio`. -/
structure ViewPointDevice where
  gaze_point : EyePair RealPoint
  gaze_point_smoothed : EyePair RealPoint
  gaze_point_corrected : EyePair RealPoint
  gaze_point_binocular : RealPoint
  gaze_angle : EyePair RealPoint
  gaze_angle_smoothed : EyePair RealPoint
  gaze_angle_corrected : EyePair RealPoint
  total_velocity : EyePair ℚ
  component_velocity : EyePair RealPoint
  velocity_binocular : ℚ
  pupil_size : EyePair RealPoint
  pupil_aspect : EyePair ℚ
  pupil_oval_rect : EyePair RealRect
  pupil_angle : EyePair ℚ
  pupil_diameter : EyePair ℚ
  pupil_point : EyePair RealPoint
  pupil_centroid : EyePair RealPoint
  diff_vector : EyePair RealPoint
  glint_point : EyePair RealPoint
  glint_centroid : EyePair RealPoint
  data_quality : EyePair ℤ
  data_time : EyePair ℚ
  data_delta_time : EyePair ℚ
  store_time : EyePair ℚ
  store_delta_time : EyePair ℚ
deriving DecidableEq

/-- The sentinel defaults of `ViewPointDevice.__init__`: points start at
`(1.0, 1.0)`, scalars at `0.0`, rectangles at `(1.0, 1.0, 1.0, 1.0)`,
quality codes at `0`. -/
def device0 : ViewPointDevice where
  gaze_point := ⟨⟨1, 1⟩, ⟨1, 1⟩⟩
  gaze_point_smoothed := ⟨⟨1, 1⟩, ⟨1, 1⟩⟩
  gaze_point_corrected := ⟨⟨1, 1⟩, ⟨1, 1⟩⟩
  gaze_point_binocular := ⟨1, 1⟩
  gaze_angle := ⟨⟨1, 1⟩, ⟨1, 1⟩⟩
  gaze_angle_smoothed := ⟨⟨1, 1⟩, ⟨1, 1⟩⟩
  gaze_angle_corrected := ⟨⟨1, 1⟩, ⟨1, 1⟩⟩
  total_velocity := ⟨0, 0⟩
  component_velocity := ⟨⟨1, 1⟩, ⟨1, 1⟩⟩
  velocity_binocular := 0
  pupil_size := ⟨⟨1, 1⟩, ⟨1, 1⟩⟩
  pupil_aspect := ⟨0, 0⟩
  pupil_oval_rect := ⟨⟨1, 1, 1, 1⟩, ⟨1, 1, 1, 1⟩⟩
  pupil_angle := ⟨0, 0⟩
  pupil_diameter := ⟨0, 0⟩
  pupil_point := ⟨⟨1, 1⟩, ⟨1, 1⟩⟩
  pupil_centroid := ⟨⟨1, 1⟩, ⟨1, 1⟩⟩
  diff_vector := ⟨⟨1, 1⟩, ⟨1, 1⟩⟩
  glint_point := ⟨⟨1, 1⟩, ⟨1, 1⟩⟩
  glint_centroid := ⟨⟨1, 1⟩, ⟨1, 1⟩⟩
  data_quality := ⟨0, 0⟩
  data_time := ⟨0, 0⟩
  data_delta_time := ⟨0, 0⟩
  store_time := ⟨0, 0⟩
  store_delta_time := ⟨0, 0⟩

/-- Constant `EYE_A = _VPX_EyeType(0)` (`device.py`). -/
def EYE_A : ℤ := 0

/-- Constant `EYE_B = _VPX_EyeType(1)` (`device.py`). -/
def EYE_B : ℤ := 1

/-- Constant `VPX_DAT_FRESH = 2` (`device.py`). -/
def VPX_DAT_FRESH : ℤ := 2

/-- Python exceptions, as raised by the modelled code:
`valueError` for `ValueError`, `assertionError` for failed `assert`,
`runtimeError` for `RuntimeError`, and `externalError` for any exception
raised inside an external call (a DLL accessor or the LSL outlet). -/
inductive PyErr where
  | valueError (msg : String)
  | assertionError (msg : String)
  | runtimeError (msg : String)
  | externalError (msg : String)
deriving DecidableEq

/-- The named accessor functions bound from the ViewPoint DLL in
`callback.py` (one constructor per `vpx_get_*` wrapper used by the
callback). -/
inductive Accessor where
  | gazePoint | gazePointSmoothed | gazePointCorrected | gazeBinocular
  | gazeAngle | gazeAngleSmoothed | gazeAngleCorrected
  | totalVelocity | componentVelocity | velocityBinocular
  | pupilSize | pupilAspect | pupilOvalRect | pupilAngle | pupilDiameter
  | pupilPoint | pupilCentroid
  | diffVector | glintPoint | glintCentroid
  | dataQuality
  | dataTime | dataDeltaTime | storeTime | storeDeltaTime
deriving DecidableEq

/-- One recorded accessor invocation: which accessor was called and, for
per-eye accessors, the integer eye selector passed as first argument
(`none` for the binocular accessors, which take no eye argument). -/
abbrev Call := Accessor × Option ℤ

/-- The native DLL and the LSL outlet, modelled as an oracle environment.
Each field gives, for one `vpx_get_*` accessor of `callback.py`, the value the
DLL writes through the out pointer (per-eye accessors receive the integer eye
selector that the Python code passes), or an exception.  `precisionDeltaTime`
models `VPX.VPX_GetPrecisionDeltaTime(None, c_int(0))`, `localClock` models
`bsl.lsl.local_clock()`, and `pushSample` models `_OUTLET.push_sample`. -/
structure VPXEnv where
  gazePoint : ℤ → Except PyErr RealPoint
  gazePointSmoothed : ℤ → Except PyErr RealPoint
  gazePointCorrected : ℤ → Except PyErr RealPoint
  gazeBinocular : Except PyErr RealPoint
  gazeAngle : ℤ → Except PyErr RealPoint
  gazeAngleSmoothed : ℤ → Except PyErr RealPoint
  gazeAngleCorrected : ℤ → Except PyErr RealPoint
  totalVelocity : ℤ → Except PyErr ℚ
  componentVelocity : ℤ → Except PyErr RealPoint
  velocityBinocular : Except PyErr ℚ
  pupilSize : ℤ → Except PyErr RealPoint
  pupilAspect : ℤ → Except PyErr ℚ
  pupilOvalRect : ℤ → Except PyErr RealRect
  pupilAngle : ℤ → Except PyErr ℚ
  pupilDiameter : ℤ → Except PyErr ℚ
  pupilPoint : ℤ → Except PyErr RealPoint
  pupilCentroid : ℤ → Except PyErr RealPoint
  diffVector : ℤ → Except PyErr RealPoint
  glintPoint : ℤ → Except PyErr RealPoint
  glintCentroid : ℤ → Except PyErr RealPoint
  dataQuality : ℤ → Except PyErr ℤ
  dataTime : ℤ → Except PyErr ℚ
  dataDeltaTime : ℤ → Except PyErr ℚ
  storeTime : ℤ → Except PyErr ℚ
  storeDeltaTime : ℤ → Except PyErr ℚ
  precisionDeltaTime : Except PyErr ℚ
  localClock : ℚ
  pushSample : List ℚ → ℚ → Except PyErr Unit

/-- A device whose accessors never raise: the plain readings each accessor
returns.  Used to build well-behaved environments. -/
structure VPXReadings where
  gazePoint : ℤ → RealPoint
  gazePointSmoothed : ℤ → RealPoint
  gazePointCorrected : ℤ → RealPoint
  gazeBinocular : RealPoint
  gazeAngle : ℤ → RealPoint
  gazeAngleSmoothed : ℤ → RealPoint
  gazeAngleCorrected : ℤ → RealPoint
  totalVelocity : ℤ → ℚ
  componentVelocity : ℤ → RealPoint
  velocityBinocular : ℚ
  pupilSize : ℤ → RealPoint
  pupilAspect : ℤ → ℚ
  pupilOvalRect : ℤ → RealRect
  pupilAngle : ℤ → ℚ
  pupilDiameter : ℤ → ℚ
  pupilPoint : ℤ → RealPoint
  pupilCentroid : ℤ → RealPoint
  diffVector : ℤ → RealPoint
  glintPoint : ℤ → RealPoint
  glintCentroid : ℤ → RealPoint
  dataQuality : ℤ → ℤ
  dataTime : ℤ → ℚ
  dataDeltaTime : ℤ → ℚ
  storeTime : ℤ → ℚ
  storeDeltaTime : ℤ → ℚ
  precisionDeltaTime : ℚ
  localClock : ℚ

/-- Build the non-raising environment of a `VPXReadings`: every accessor
succeeds with the given reading and the outlet accepts every push. -/
def mkEnv (r : VPXReadings) : VPXEnv where
  gazePoint := fun e => .ok (r.gazePoint e)
  gazePointSmoothed := fun e => .ok (r.gazePointSmoothed e)
  gazePointCorrected := fun e => .ok (r.gazePointCorrected e)
  gazeBinocular := .ok r.gazeBinocular
  gazeAngle := fun e => .ok (r.gazeAngle e)
  gazeAngleSmoothed := fun e => .ok (r.gazeAngleSmoothed e)
  gazeAngleCorrected := fun e => .ok (r.gazeAngleCorrected e)
  totalVelocity := fun e => .ok (r.totalVelocity e)
  componentVelocity := fun e => .ok (r.componentVelocity e)
  velocityBinocular := .ok r.velocityBinocular
  pupilSize := fun e => .ok (r.pupilSize e)
  pupilAspect := fun e => .ok (r.pupilAspect e)
  pupilOvalRect := fun e => .ok (r.pupilOvalRect e)
  pupilAngle := fun e => .ok (r.pupilAngle e)
  pupilDiameter := fun e => .ok (r.pupilDiameter e)
  pupilPoint := fun e => .ok (r.pupilPoint e)
  pupilCentroid := fun e => .ok (r.pupilCentroid e)
  diffVector := fun e => .ok (r.diffVector e)
  glintPoint := fun e => .ok (r.glintPoint e)
  glintCentroid := fun e => .ok (r.glintCentroid e)
  dataQuality := fun e => .ok (r.dataQuality e)
  dataTime := fun e => .ok (r.dataTime e)
  dataDeltaTime := fun e => .ok (r.dataDeltaTime e)
  storeTime := fun e => .ok (r.storeTime e)
  storeDeltaTime := fun e => .ok (r.storeDeltaTime e)
  precisionDeltaTime := .ok r.precisionDeltaTime
  localClock := r.localClock
  pushSample := fun _ _ => .ok ()

/-- Default readings: every point reads `(1, 1)`, every scalar `0`, quality
`0`; used to instantiate witnesses. -/
def readings0 : VPXReadings where
  gazePoint := fun _ => ⟨1, 1⟩
  gazePointSmoothed := fun _ => ⟨1, 1⟩
  gazePointCorrected := fun _ => ⟨1, 1⟩
  gazeBinocular := ⟨1, 1⟩
  gazeAngle := fun _ => ⟨1, 1⟩
  gazeAngleSmoothed := fun _ => ⟨1, 1⟩
  gazeAngleCorrected := fun _ => ⟨1, 1⟩
  totalVelocity := fun _ => 0
  componentVelocity := fun _ => ⟨1, 1⟩
  velocityBinocular := 0
  pupilSize := fun _ => ⟨1, 1⟩
  pupilAspect := fun _ => 0
  pupilOvalRect := fun _ => ⟨1, 1, 1, 1⟩
  pupilAngle := fun _ => 0
  pupilDiameter := fun _ => 0
  pupilPoint := fun _ => ⟨1, 1⟩
  pupilCentroid := fun _ => ⟨1, 1⟩
  diffVector := fun _ => ⟨1, 1⟩
  glintPoint := fun _ => ⟨1, 1⟩
  glintCentroid := fun _ => ⟨1, 1⟩
  dataQuality := fun _ => 0
  dataTime := fun _ => 0
  dataDeltaTime := fun _ => 0
  storeTime := fun _ => 0
  storeDeltaTime := fun _ => 0
  precisionDeltaTime := 0
  localClock := 0

/-- The error message raised by `get_gaze_point` / `get_gaze_angle` for an
unrecognized `processing` argument (`callback.py`); `shown` is the `f"{...}"`
rendering of the offending value. -/
def invalidProcessingMsg (shown : String) : String :=
  "Argument 'processing' should be 'raw', 'smoothed' or 'corrected'. '"
    ++ shown ++ "' is invalid."

/-- Python `f"{x}"` rendering of the `Optional[str]` processing argument:
`None` prints as `None`, a string prints verbatim. -/
def pyShow (processing : Option String) : String :=
  match processing with
  | none => "None"
  | some s => s

/-- Mirrors `get_gaze_point` (`callback.py`, lines 106-134).  Returns the
updated device together with the accessor invocations performed, or the
exception raised.  The `assert` guard, the binocular branch, the
dictionary dispatch on `processing` with its `ValueError`, and the
`eye_idx` selection are transcribed in source order. -/
def get_gaze_point (env : VPXEnv) (device : ViewPointDevice) (eye : String)
    (processing : Option String) : Except PyErr (ViewPointDevice × List Call) :=
  if eye ∉ (["A", "B", "AB"] : List String) then
    .error (.assertionError "The eye selection should be 'A', 'B' or 'AB'.")
  else if eye = "AB" then do
    let p ← env.gazeBinocular
    .ok ({ device with gaze_point_binocular := p }, [(Accessor.gazeBinocular, none)])
  else if processing = some "raw" then do
    let eye_idx : ℤ := if eye = "A" then EYE_A else EYE_B
    let p ← env.gazePoint eye_idx
    .ok ({ device with gaze_point := setEye device.gaze_point eye p },
      [(Accessor.gazePoint, some eye_idx)])
  else if processing = some "smoothed" then do
    let eye_idx : ℤ := if eye = "A" then EYE_A else EYE_B
    let p ← env.gazePointSmoothed eye_idx
    .ok ({ device with gaze_point_smoothed := setEye device.gaze_point_smoothed eye p },
      [(Accessor.gazePointSmoothed, some eye_idx)])
  else if processing = some "corrected" then do
    let eye_idx : ℤ := if eye = "A" then EYE_A else EYE_B
    let p ← env.gazePointCorrected eye_idx
    .ok ({ device with gaze_point_corrected := setEye device.gaze_point_corrected eye p },
      [(Accessor.gazePointCorrected, some eye_idx)])
  else
    .error (.valueError (invalidProcessingMsg (pyShow processing)))

/-- Mirrors `get_gaze_angle` (`callback.py`, lines 137-160): same dictionary
dispatch as `get_gaze_point` but per-eye only (`assert eye in ("A", "B")`),
no binocular branch. -/
def get_gaze_angle (env : VPXEnv) (device : ViewPointDevice) (eye : String)
    (processing : Option String) : Except PyErr (ViewPointDevice × List Call) :=
  if eye ∉ (["A", "B"] : List String) then
    .error (.assertionError "The eye selection should be 'A' or 'B'.")
  else if processing = some "raw" then do
    let eye_idx : ℤ := if eye = "A" then EYE_A else EYE_B
    let p ← env.gazeAngle eye_idx
    .ok ({ device with gaze_angle := setEye device.gaze_angle eye p },
      [(Accessor.gazeAngle, some eye_idx)])
  else if processing = some "smoothed" then do
    let eye_idx : ℤ := if eye = "A" then EYE_A else EYE_B
    let p ← env.gazeAngleSmoothed eye_idx
    .ok ({ device with gaze_angle_smoothed := setEye device.gaze_angle_smoothed eye p },
      [(Accessor.gazeAngleSmoothed, some eye_idx)])
  else if processing = some "corrected" then do
    let eye_idx : ℤ := if eye = "A" then EYE_A else EYE_B
    let p ← env.gazeAngleCorrected eye_idx
    .ok ({ device with gaze_angle_corrected := setEye device.gaze_angle_corrected eye p },
      [(Accessor.gazeAngleCorrected, some eye_idx)])
  else
    .error (.valueError (invalidProcessingMsg (pyShow processing)))

/-- Mirrors `get_gaze_velocity` (`callback.py`, lines 163-191): binocular
branch on `eye == "AB"`, otherwise dispatch on `property_name` in
`("total", "component")` with a `ValueError` naming the offending value. -/
def get_gaze_velocity (env : VPXEnv) (device : ViewPointDevice) (eye : String)
    (property_name : String) : Except PyErr (ViewPointDevice × List Call) :=
  if eye ∉ (["A", "B", "AB"] : List String) then
    .error (.assertionError "The eye selection should be 'A', 'B' or 'AB'.")
  else if eye = "AB" then do
    let v ← env.velocityBinocular
    .ok ({ device with velocity_binocular := v }, [(Accessor.velocityBinocular, none)])
  else if property_name = "total" then do
    let eye_idx : ℤ := if eye = "A" then EYE_A else EYE_B
    let v ← env.totalVelocity eye_idx
    .ok ({ device with total_velocity := setEye device.total_velocity eye v },
      [(Accessor.totalVelocity, some eye_idx)])
  else if property_name = "component" then do
    let eye_idx : ℤ := if eye = "A" then EYE_A else EYE_B
    let p ← env.componentVelocity eye_idx
    .ok ({ device with component_velocity := setEye device.component_velocity eye p },
      [(Accessor.componentVelocity, some eye_idx)])
  else
    .error (.valueError ("Argument 'property_name' should be 'total' or 'component'. '"
      ++ property_name ++ "' is invalid."))

/-- Mirrors `get_pupil_property` (`callback.py`, lines 194-225): dispatch on
`property_name` over the seven pupil measurements, with a `ValueError`
naming the offending value. -/
def get_pupil_property (env : VPXEnv) (device : ViewPointDevice) (eye : String)
    (property_name : String) : Except PyErr (ViewPointDevice × List Call) :=
  if eye ∉ (["A", "B"] : List String) then
    .error (.assertionError "The eye selection should be 'A' or 'B'.")
  else if property_name = "size" then do
    let eye_idx : ℤ := if eye = "A" then EYE_A else EYE_B
    let p ← env.pupilSize eye_idx
    .ok ({ device with pupil_size := setEye device.pupil_size eye p },
      [(Accessor.pupilSize, some eye_idx)])
  else if property_name = "aspect_ratio" then do
    let eye_idx : ℤ := if eye = "A" then EYE_A else EYE_B
    let v ← env.pupilAspect eye_idx
    .ok ({ device with pupil_aspect := setEye device.pupil_aspect eye v },
      [(Accessor.pupilAspect, some eye_idx)])
  else if property_name = "oval_rect" then do
    let eye_idx : ℤ := if eye = "A" then EYE_A else EYE_B
    let rct ← env.pupilOvalRect eye_idx
    .ok ({ device with pupil_oval_rect := setEye device.pupil_oval_rect eye rct },
      [(Accessor.pupilOvalRect, some eye_idx)])
  else if property_name = "angle" then do
    let eye_idx : ℤ := if eye = "A" then EYE_A else EYE_B
    let v ← env.pupilAngle eye_idx
    .ok ({ device with pupil_angle := setEye device.pupil_angle eye v },
      [(Accessor.pupilAngle, some eye_idx)])
  else if property_name = "diameter" then do
    let eye_idx : ℤ := if eye = "A" then EYE_A else EYE_B
    let v ← env.pupilDiameter eye_idx
    .ok ({ device with pupil_diameter := setEye device.pupil_diameter eye v },
      [(Accessor.pupilDiameter, some eye_idx)])
  else if property_name = "point" then do
    let eye_idx : ℤ := if eye = "A" then EYE_A else EYE_B
    let p ← env.pupilPoint eye_idx
    .ok ({ device with pupil_point := setEye device.pupil_point eye p },
      [(Accessor.pupilPoint, some eye_idx)])
  else if property_name = "centroid" then do
    let eye_idx : ℤ := if eye = "A" then EYE_A else EYE_B
    let p ← env.pupilCentroid eye_idx
    .ok ({ device with pupil_centroid := setEye device.pupil_centroid eye p },
      [(Accessor.pupilCentroid, some eye_idx)])
  else
    .error (.valueError ("Argument 'property_name' should be one of 'size', 'aspect_ratio', 'oval_rect', 'angle', 'diameter', 'point', 'centroid'. '"
      ++ property_name ++ "' is invalid."))

/-- Mirrors `_CH_NAMES` (`callback.py`, lines 229-314): the fixed channel
order advertised to the LSL stream at setup time. -/
def chNames : List String :=
  [ "gaze_point_raw_A_x", "gaze_point_raw_A_y",
    "gaze_point_raw_B_x", "gaze_point_raw_B_y",
    "gaze_angle_raw_A_x", "gaze_angle_raw_A_y",
    "gaze_angle_raw_B_x", "gaze_angle_raw_B_y",
    "gaze_point_smoothed_A_x", "gaze_point_smoothed_A_y",
    "gaze_point_smoothed_B_x", "gaze_point_smoothed_B_y",
    "gaze_angle_smoothed_A_x", "gaze_angle_smoothed_A_y",
    "gaze_angle_smoothed_B_x", "gaze_angle_smoothed_B_y",
    "gaze_point_corrected_A_x", "gaze_point_corrected_A_y",
    "gaze_point_corrected_B_x", "gaze_point_corrected_B_y",
    "gaze_angle_corrected_A_x", "gaze_angle_corrected_A_y",
    "gaze_angle_corrected_B_x", "gaze_angle_corrected_B_y",
    "gaze_point_binocular_x", "gaze_point_binocular_y",
    "total_velocity_A", "total_velocity_B",
    "component_velocity_A_x", "component_velocity_A_y",
    "component_velocity_B_x", "component_velocity_B_y",
    "velocity_binocular",
    "pupil_size_A_x", "pupil_size_A_y", "pupil_size_B_x", "pupil_size_B_y",
    "pupil_aspect_ratio_A", "pupil_aspect_ratio_B",
    "pupil_angle_A", "pupil_angle_B",
    "pupil_diameter_A", "pupil_diameter_B",
    "pupil_point_A_x", "pupil_point_A_y", "pupil_point_B_x", "pupil_point_B_y",
    "pupil_centroid_A_x", "pupil_centroid_A_y",
    "pupil_centroid_B_x", "pupil_centroid_B_y",
    "diff_vector_A_x", "diff_vector_A_y", "diff_vector_B_x", "diff_vector_B_y",
    "glint_point_A_x", "glint_point_A_y", "glint_point_B_x", "glint_point_B_y",
    "glint_centroid_A_x", "glint_centroid_A_y",
    "glint_centroid_B_x", "glint_centroid_B_y",
    "data_quality_A", "data_quality_B",
    "data_time_A", "data_time_B",
    "data_delta_time_A", "data_delta_time_B",
    "store_time_A", "store_time_B",
    "store_delta_time_A", "store_delta_time_B",
    "current_time" ]

/-- Mirrors the `np.array([...])` literal assembled inside `callback`
(`callback.py`, lines 399-487): the 74 sample fields read from the device
slots in source order, with the trailing `current_time` reading. -/
def assemble (d : ViewPointDevice) (current_time : ℚ) : List ℚ :=
  [ d.gaze_point.A.x, d.gaze_point.A.y,
    d.gaze_point.B.x, d.gaze_point.B.y,
    d.gaze_angle.A.x, d.gaze_angle.A.y,
    d.gaze_angle.B.x, d.gaze_angle.B.y,
    d.gaze_point_smoothed.A.x, d.gaze_point_smoothed.A.y,
    d.gaze_point_smoothed.B.x, d.gaze_point_smoothed.B.y,
    d.gaze_angle_smoothed.A.x, d.gaze_angle_smoothed.A.y,
    d.gaze_angle_smoothed.B.x, d.gaze_angle_smoothed.B.y,
    d.gaze_point_corrected.A.x, d.gaze_point_corrected.A.y,
    d.gaze_point_corrected.B.x, d.gaze_point_corrected.B.y,
    d.gaze_angle_corrected.A.x, d.gaze_angle_corrected.A.y,
    d.gaze_angle_corrected.B.x, d.gaze_angle_corrected.B.y,
    d.gaze_point_binocular.x, d.gaze_point_binocular.y,
    d.total_velocity.A, d.total_velocity.B,
    d.component_velocity.A.x, d.component_velocity.A.y,
    d.component_velocity.B.x, d.component_velocity.B.y,
    d.velocity_binocular,
    d.pupil_size.A.x, d.pupil_size.A.y, d.pupil_size.B.x, d.pupil_size.B.y,
    d.pupil_aspect.A, d.pupil_aspect.B,
    d.pupil_angle.A, d.pupil_angle.B,
    d.pupil_diameter.A, d.pupil_diameter.B,
    d.pupil_point.A.x, d.pupil_point.A.y, d.pupil_point.B.x, d.pupil_point.B.y,
    d.pupil_centroid.A.x, d.pupil_centroid.A.y,
    d.pupil_centroid.B.x, d.pupil_centroid.B.y,
    d.diff_vector.A.x, d.diff_vector.A.y, d.diff_vector.B.x, d.diff_vector.B.y,
    d.glint_point.A.x, d.glint_point.A.y, d.glint_point.B.x, d.glint_point.B.y,
    d.glint_centroid.A.x, d.glint_centroid.A.y,
    d.glint_centroid.B.x, d.glint_centroid.B.y,
    (d.data_quality.A : ℚ), (d.data_quality.B : ℚ),
    d.data_time.A, d.data_time.B,
    d.data_delta_time.A, d.data_delta_time.B,
    d.store_time.A, d.store_time.B,
    d.store_delta_time.A, d.store_delta_time.B,
    current_time ]

/-- The measurement named by a channel string: the intended reading of each
entry of `_CH_NAMES` as a device slot (the final channel `current_time` is
the precision-clock reading taken inside the callback, not a device slot).
This definition follows the spec's naming convention, independently of the
order in which `assemble` lists the fields. -/
def readChannel (d : ViewPointDevice) (current_time : ℚ) : String → ℚ
  | "gaze_point_raw_A_x" => d.gaze_point.A.x
  | "gaze_point_raw_A_y" => d.gaze_point.A.y
  | "gaze_point_raw_B_x" => d.gaze_point.B.x
  | "gaze_point_raw_B_y" => d.gaze_point.B.y
  | "gaze_angle_raw_A_x" => d.gaze_angle.A.x
  | "gaze_angle_raw_A_y" => d.gaze_angle.A.y
  | "gaze_angle_raw_B_x" => d.gaze_angle.B.x
  | "gaze_angle_raw_B_y" => d.gaze_angle.B.y
  | "gaze_point_smoothed_A_x" => d.gaze_point_smoothed.A.x
  | "gaze_point_smoothed_A_y" => d.gaze_point_smoothed.A.y
  | "gaze_point_smoothed_B_x" => d.gaze_point_smoothed.B.x
  | "gaze_point_smoothed_B_y" => d.gaze_point_smoothed.B.y
  | "gaze_angle_smoothed_A_x" => d.gaze_angle_smoothed.A.x
  | "gaze_angle_smoothed_A_y" => d.gaze_angle_smoothed.A.y
  | "gaze_angle_smoothed_B_x" => d.gaze_angle_smoothed.B.x
  | "gaze_angle_smoothed_B_y" => d.gaze_angle_smoothed.B.y
  | "gaze_point_corrected_A_x" => d.gaze_point_corrected.A.x
  | "gaze_point_corrected_A_y" => d.gaze_point_corrected.A.y
  | "gaze_point_corrected_B_x" => d.gaze_point_corrected.B.x
  | "gaze_point_corrected_B_y" => d.gaze_point_corrected.B.y
  | "gaze_angle_corrected_A_x" => d.gaze_angle_corrected.A.x
  | "gaze_angle_corrected_A_y" => d.gaze_angle_corrected.A.y
  | "gaze_angle_corrected_B_x" => d.gaze_angle_corrected.B.x
  | "gaze_angle_corrected_B_y" => d.gaze_angle_corrected.B.y
  | "gaze_point_binocular_x" => d.gaze_point_binocular.x
  | "gaze_point_binocular_y" => d.gaze_point_binocular.y
  | "total_velocity_A" => d.total_velocity.A
  | "total_velocity_B" => d.total_velocity.B
  | "component_velocity_A_x" => d.component_velocity.A.x
  | "component_velocity_A_y" => d.component_velocity.A.y
  | "component_velocity_B_x" => d.component_velocity.B.x
  | "component_velocity_B_y" => d.component_velocity.B.y
  | "velocity_binocular" => d.velocity_binocular
  | "pupil_size_A_x" => d.pupil_size.A.x
  | "pupil_size_A_y" => d.pupil_size.A.y
  | "pupil_size_B_x" => d.pupil_size.B.x
  | "pupil_size_B_y" => d.pupil_size.B.y
  | "pupil_aspect_ratio_A" => d.pupil_aspect.A
  | "pupil_aspect_ratio_B" => d.pupil_aspect.B
  | "pupil_angle_A" => d.pupil_angle.A
  | "pupil_angle_B" => d.pupil_angle.B
  | "pupil_diameter_A" => d.pupil_diameter.A
  | "pupil_diameter_B" => d.pupil_diameter.B
  | "pupil_point_A_x" => d.pupil_point.A.x
  | "pupil_point_A_y" => d.pupil_point.A.y
  | "pupil_point_B_x" => d.pupil_point.B.x
  | "pupil_point_B_y" => d.pupil_point.B.y
  | "pupil_centroid_A_x" => d.pupil_centroid.A.x
  | "pupil_centroid_A_y" => d.pupil_centroid.A.y
  | "pupil_centroid_B_x" => d.pupil_centroid.B.x
  | "pupil_centroid_B_y" => d.pupil_centroid.B.y
  | "diff_vector_A_x" => d.diff_vector.A.x
  | "diff_vector_A_y" => d.diff_vector.A.y
  | "diff_vector_B_x" => d.diff_vector.B.x
  | "diff_vector_B_y" => d.diff_vector.B.y
  | "glint_point_A_x" => d.glint_point.A.x
  | "glint_point_A_y" => d.glint_point.A.y
  | "glint_point_B_x" => d.glint_point.B.x
  | "glint_point_B_y" => d.glint_point.B.y
  | "glint_centroid_A_x" => d.glint_centroid.A.x
  | "glint_centroid_A_y" => d.glint_centroid.A.y
  | "glint_centroid_B_x" => d.glint_centroid.B.x
  | "glint_centroid_B_y" => d.glint_centroid.B.y
  | "data_quality_A" => (d.data_quality.A : ℚ)
  | "data_quality_B" => (d.data_quality.B : ℚ)
  | "data_time_A" => d.data_time.A
  | "data_time_B" => d.data_time.B
  | "data_delta_time_A" => d.data_delta_time.A
  | "data_delta_time_B" => d.data_delta_time.B
  | "store_time_A" => d.store_time.A
  | "store_time_B" => d.store_time.B
  | "store_delta_time_A" => d.store_delta_time.A
  | "store_delta_time_B" => d.store_delta_time.B
  | "current_time" => current_time
  | _ => 0

/-- The outcome of one callback invocation: the device state after the call,
the accessor invocations performed, the samples pushed to the outlet (data
list with the timestamp passed to `push_sample`), and the returned exit
code. -/
structure CallbackResult where
  device : ViewPointDevice
  calls : List Call
  pushes : List (List ℚ × ℚ)
  ret : ℤ
deriving DecidableEq


/-- Collection stage of `callback` for the gaze sections (`callback.py`,
lines 338-354): raw, smoothed and corrected gaze point/angle for both eyes,
then the binocular gaze point. -/
def collectGaze (env : VPXEnv) (device : ViewPointDevice) :
    Except PyErr (ViewPointDevice × List Call) := do
  let (d, c01) ← get_gaze_point env device "A" (some "raw")
  let (d, c02) ← get_gaze_point env d "B" (some "raw")
  let (d, c03) ← get_gaze_angle env d "A" (some "raw")
  let (d, c04) ← get_gaze_angle env d "B" (some "raw")
  let (d, c05) ← get_gaze_point env d "A" (some "smoothed")
  let (d, c06) ← get_gaze_point env d "B" (some "smoothed")
  let (d, c07) ← get_gaze_angle env d "A" (some "smoothed")
  let (d, c08) ← get_gaze_angle env d "B" (some "smoothed")
  let (d, c09) ← get_gaze_point env d "A" (some "corrected")
  let (d, c10) ← get_gaze_point env d "B" (some "corrected")
  let (d, c11) ← get_gaze_angle env d "A" (some "corrected")
  let (d, c12) ← get_gaze_angle env d "B" (some "corrected")
  let (d, c13) ← get_gaze_point env d "AB" none
  .ok (d, c01 ++ c02 ++ c03 ++ c04 ++ c05 ++ c06 ++ c07 ++ c08 ++ c09 ++ c10
    ++ c11 ++ c12 ++ c13)

/-- Collection stage of `callback` for the velocity section (`callback.py`,
lines 356-360). -/
def collectVelocity (env : VPXEnv) (device : ViewPointDevice) :
    Except PyErr (ViewPointDevice × List Call) := do
  let (d, c14) ← get_gaze_velocity env device "A" "total"
  let (d, c15) ← get_gaze_velocity env d "B" "total"
  let (d, c16) ← get_gaze_velocity env d "A" "component"
  let (d, c17) ← get_gaze_velocity env d "B" "component"
  let (d, c18) ← get_gaze_velocity env d "AB" ""
  .ok (d, c14 ++ c15 ++ c16 ++ c17 ++ c18)

/-- Collection stage of `callback` for the pupil section (`callback.py`,
lines 362-373). -/
def collectPupil (env : VPXEnv) (device : ViewPointDevice) :
    Except PyErr (ViewPointDevice × List Call) := do
  let (d, c19) ← get_pupil_property env device "A" "size"
  let (d, c20) ← get_pupil_property env d "B" "size"
  let (d, c21) ← get_pupil_property env d "A" "aspect_ratio"
  let (d, c22) ← get_pupil_property env d "B" "aspect_ratio"
  let (d, c23) ← get_pupil_property env d "A" "angle"
  let (d, c24) ← get_pupil_property env d "B" "angle"
  let (d, c25) ← get_pupil_property env d "A" "diameter"
  let (d, c26) ← get_pupil_property env d "B" "diameter"
  let (d, c27) ← get_pupil_property env d "A" "point"
  let (d, c28) ← get_pupil_property env d "B" "point"
  let (d, c29) ← get_pupil_property env d "A" "centroid"
  let (d, c30) ← get_pupil_property env d "B" "centroid"
  .ok (d, c19 ++ c20 ++ c21 ++ c22 ++ c23 ++ c24 ++ c25 ++ c26 ++ c27 ++ c28
    ++ c29 ++ c30)

/-- Collection stage of `callback` for the glint and data-quality sections
(`callback.py`, lines 375-383): direct accessor calls, bypassing the
dispatch helpers. -/
def collectGlintQuality (env : VPXEnv) (device : ViewPointDevice) :
    Except PyErr (ViewPointDevice × List Call) := do
  let dvA ← env.diffVector EYE_A
  let d := { device with diff_vector := { device.diff_vector with A := dvA } }
  let dvB ← env.diffVector EYE_B
  let d := { d with diff_vector := { d.diff_vector with B := dvB } }
  let gpA ← env.glintPoint EYE_A
  let d := { d with glint_point := { d.glint_point with A := gpA } }
  let gpB ← env.glintPoint EYE_B
  let d := { d with glint_point := { d.glint_point with B := gpB } }
  let gcA ← env.glintCentroid EYE_A
  let d := { d with glint_centroid := { d.glint_centroid with A := gcA } }
  let gcB ← env.glintCentroid EYE_B
  let d := { d with glint_centroid := { d.glint_centroid with B := gcB } }
  let dqA ← env.dataQuality EYE_A
  let d := { d with data_quality := { d.data_quality with A := dqA } }
  let dqB ← env.dataQuality EYE_B
  let d := { d with data_quality := { d.data_quality with B := dqB } }
  .ok (d, [(Accessor.diffVector, some EYE_A), (Accessor.diffVector, some EYE_B),
    (Accessor.glintPoint, some EYE_A), (Accessor.glintPoint, some EYE_B),
    (Accessor.glintCentroid, some EYE_A), (Accessor.glintCentroid, some EYE_B),
    (Accessor.dataQuality, some EYE_A), (Accessor.dataQuality, some EYE_B)])

/-- Collection stage of `callback` for the timestamp section (`callback.py`,
lines 385-392).  Line 390 of the source passes `EYE_A` while writing into
`DEVICE.store_time["B"]`; the transcription keeps that call exactly. -/
def collectTimestamps (env : VPXEnv) (device : ViewPointDevice) :
    Except PyErr (ViewPointDevice × List Call) := do
  let dtA ← env.dataTime EYE_A
  let d := { device with data_time := { device.data_time with A := dtA } }
  let dtB ← env.dataTime EYE_B
  let d := { d with data_time := { d.data_time with B := dtB } }
  let ddA ← env.dataDeltaTime EYE_A
  let d := { d with data_delta_time := { d.data_delta_time with A := ddA } }
  let ddB ← env.dataDeltaTime EYE_B
  let d := { d with data_delta_time := { d.data_delta_time with B := ddB } }
  let stA ← env.storeTime EYE_A
  let d := { d with store_time := { d.store_time with A := stA } }
  let stB ← env.storeTime EYE_A
  let d := { d with store_time := { d.store_time with B := stB } }
  let sdA ← env.storeDeltaTime EYE_A
  let d := { d with store_delta_time := { d.store_delta_time with A := sdA } }
  let sdB ← env.storeDeltaTime EYE_B
  let d := { d with store_delta_time := { d.store_delta_time with B := sdB } }
  .ok (d, [(Accessor.dataTime, some EYE_A), (Accessor.dataTime, some EYE_B),
    (Accessor.dataDeltaTime, some EYE_A), (Accessor.dataDeltaTime, some EYE_B),
    (Accessor.storeTime, some EYE_A), (Accessor.storeTime, some EYE_A),
    (Accessor.storeDeltaTime, some EYE_A), (Accessor.storeDeltaTime, some EYE_B)])

/-- Mirrors `callback` (`callback.py`, lines 332-490).  Filter on
`msg == VPX_DAT_FRESH and sub_msg == EYE_A.value`; on a match, run the full
collection sequence of lines 338-392 in source order (staged here by the
source's own section comments), read `VPX_GetPrecisionDeltaTime`, assemble
the sample, and push it with `timestamp=0` (line 489); in every case the
exit code is `0` (line 490).  An exception raised by any inner call
propagates: the function body has no handler. -/
def callback (env : VPXEnv) (device : ViewPointDevice) (msg sub_msg _p1 _p2 : ℤ) :
    Except PyErr CallbackResult :=
  if msg = VPX_DAT_FRESH ∧ sub_msg = EYE_A then do
    let _now := env.localClock
    let (d, cg) ← collectGaze env device
    let (d, cv) ← collectVelocity env d
    let (d, cp) ← collectPupil env d
    let (d, cq) ← collectGlintQuality env d
    let (d, ct) ← collectTimestamps env d
    let _acquisition_time := d.store_time.A
    let current_time ← env.precisionDeltaTime
    let data := assemble d current_time
    let _ ← env.pushSample data 0
    .ok ⟨d, cg ++ cv ++ cp ++ cq ++ ct, [(data, 0)], 0⟩
  else
    .ok ⟨device, [], [], 0⟩

/-- Mirrors `Buffer` (`buffer.py`): the numpy array `_buffer` of shape
`(bufsize, len(ch_names))` as a list of rows, its column count, and the fill
index `_idx`. -/
structure Buffer where
  buffer : List (List ℚ)
  nch : ℕ
  idx : ℕ
deriving DecidableEq

/-- Property `Buffer.bufsize`: `self._buffer.shape[0]`. -/
def Buffer.bufsize (b : Buffer) : ℕ := b.buffer.length

/-- Property `Buffer.n_channels`: `self._buffer.shape[1]`. -/
def Buffer.n_channels (b : Buffer) : ℕ := b.nch

/-- Mirrors `Buffer.__init__`: `np.zeros((bufsize, len(ch_names)))` and
`_idx = 0`. -/
def mkBuffer (ch_names : List String) (bufsize : ℕ) : Buffer :=
  ⟨List.replicate bufsize (List.replicate ch_names.length 0), ch_names.length, 0⟩

/-- Mirrors `Buffer.add_sample`: `self._buffer[self._idx, :] = data` followed
by `self._idx += 1`.  The numpy row assignment raises when the fill index is
out of bounds or the data length does not match the channel count, which the
model surfaces as an error. -/
def Buffer.add_sample (b : Buffer) (data : List ℚ) : Except PyErr Buffer :=
  if b.idx < b.bufsize ∧ data.length = b.nch then
    .ok { b with buffer := b.buffer.set b.idx data, idx := b.idx + 1 }
  else
    .error (.externalError "numpy row assignment failed")

/-- Mirrors `Buffer.reset`: `self._idx = 0`, contents untouched. -/
def Buffer.reset (b : Buffer) : Buffer := { b with idx := 0 }

/-- Mirrors the `Buffer.is_full` property: `self._idx == self.bufsize`. -/
def Buffer.is_full (b : Buffer) : Bool := b.idx == b.bufsize

/-- A value held in a configuration file.  `configparser` stores every value
as a string; the model tags a value with how it was written, so that the
`float(...)` conversion of `load_config` can be modelled exactly: a value
written as a number parses back to that number, a non-numeric string fails
to parse. -/
inductive CfgVal where
  | str (s : String)
  | num (q : ℚ)
deriving DecidableEq

/-- Python `float(...)` on a configuration value: succeeds exactly on values
written as numbers. -/
def pyFloat : CfgVal → Option ℚ
  | .num q => some q
  | .str _ => none

/-- The string `configparser` hands back for a stored value. -/
def pyStr : CfgVal → String
  | .str s => s
  | .num q => toString q

/-- A parsed configuration file, as `configparser` sees it: named sections,
each a list of key/value options. -/
structure ConfigFile where
  sections : List (String × List (String × CfgVal))
deriving DecidableEq

/-- Option lookup within a section (`config["config"]["key"]`). -/
def lookupEntry (entries : List (String × CfgVal)) (key : String) : Option CfgVal :=
  (entries.find? (fun p => p.1 == key)).map Prod.snd

/-- Section lookup (`config["config"]`). -/
def lookupSection (c : ConfigFile) (name : String) : Option (List (String × CfgVal)) :=
  (c.sections.find? (fun p => p.1 == name)).map Prod.snd

/-- The filesystem as `load_config` / `write_config` see it: a partial map
from file names to parsed configuration contents (any existing file maps to
`some` contents; a missing file to `none`). -/
abbrev FileSys := String → Option ConfigFile

/-- The warning emitted by `load_config` when the `try` block fails
(`config.py`, line 28). -/
def warnBadFormat : String := "The configuration file is not correctly formatted."

/-- The `try` block of `load_config` (`config.py`, lines 24-26): read
`config["config"]["VPX_InterApp_64.dll"]`, then
`float(config["config"]["sfreq"])`; `none` when any step raises. -/
def extractConfig (cfg : ConfigFile) : Option (String × ℚ) := do
  let sec ← lookupSection cfg "config"
  let dll ← lookupEntry sec "VPX_InterApp_64.dll"
  let sf ← lookupEntry sec "sfreq"
  let q ← pyFloat sf
  pure (pyStr dll, q)

/-- Mirrors `load_config` (`config.py`, lines 14-31).  Returns the
`(lib_path, sfreq)` pair together with the warnings logged during the call:
a missing file returns `(None, None)` with no logging (line 19-20); a file
whose `try` block fails returns `(None, None)` after logging the
formatting warning (lines 27-30). -/
def load_config (fs : FileSys) (fname : String) :
    (Option String × Option ℚ) × List String :=
  match fs fname with
  | none => ((none, none), [])
  | some cfg =>
    match extractConfig cfg with
    | some pq => ((some pq.1, some pq.2), [])
    | none => ((none, none), [warnBadFormat])

/-- Mirrors `write_config` (`config.py`, lines 34-47).
`ensure_path(path, must_exist=True)` raises when `path` does not exist;
otherwise the configuration file `fname` is (re)written with the single
section `config` holding `VPX_InterApp_64.dll = str(path)` and
`sfreq = sfreq` (`configparser` stringifies the numeric value on write). -/
def write_config (fs : FileSys) (path : String) (sfreq : ℚ) (fname : String) :
    Except PyErr FileSys :=
  if (fs path).isSome then
    .ok (fun f => if f = fname then
      some ⟨[("config", [("VPX_InterApp_64.dll", .str path), ("sfreq", .num sfreq)])]⟩
    else fs f)
  else
    .error (.runtimeError "ensure_path: the file does not exist.")

/-- Modelled from the spec: Clock Reconciliation (spec §4.3),
`delay = device_now - device_event_time;
consumer_timestamp = consumer_now - delay`.  No function in `src/` computes
this: the variant under `src/` pushes every sample with timestamp `0`
(`callback.py`, line 489). -/
def reconcile (consumer_now device_now device_event_time : ℚ) : ℚ :=
  consumer_now - (device_now - device_event_time)

/-- The timestamps handed to `push_sample` during one callback invocation
(empty when the invocation raised). -/
def pushTimestamps : Except PyErr CallbackResult → List ℚ
  | .ok r => r.pushes.map Prod.snd
  | .error _ => []

/-- The data lists handed to `push_sample` during one callback invocation
(empty when the invocation raised). -/
def pushDatas : Except PyErr CallbackResult → List (List ℚ)
  | .ok r => r.pushes.map Prod.fst
  | .error _ => []

/-- The per-eye store-time calls observed in one callback invocation: how
often the store-time accessor was called with selector A and with
selector B, paired with the final store-time B slot (the triple is `(0, 0, 0)`
when the invocation raised). -/
def storeTimeProfile : Except PyErr CallbackResult → ℕ × ℕ × ℚ
  | .ok r => (r.calls.count (Accessor.storeTime, some EYE_A),
              r.calls.count (Accessor.storeTime, some EYE_B),
              r.device.store_time.B)
  | .error _ => (0, 0, 0)

/-- Readings for the spec's clock-reconciliation scenario: the LSL clock
(`local_clock`) reads 100, the device precision clock reads 50, and the
device-side event (store) time is 49.5. -/
def readings1 : VPXReadings :=
  { readings0 with
    localClock := 100
    precisionDeltaTime := 50
    storeTime := fun _ => 99 / 2 }

/-- Readings where the two eyes' store times differ: the store-time accessor
returns 7 for eye selector A and 8 for any other selector. -/
def readings2 : VPXReadings :=
  { readings0 with storeTime := fun e => if e = 0 then 7 else 8 }

/-- Readings identical to `readings0` except that the precision clock reads
1 instead of 0. -/
def readingsT1 : VPXReadings :=
  { readings0 with precisionDeltaTime := 1 }

/-- An environment whose accessors all succeed but whose outlet raises on
`push_sample`. -/
def envBadPush : VPXEnv :=
  { mkEnv readings0 with
    pushSample := fun _ _ => .error (.externalError "push_sample failed") }

/-- A one-file filesystem: only the DLL at `/path/to/VPX_InterApp_64.dll`
exists. -/
def fs0 : FileSys :=
  fun f => if f = "/path/to/VPX_InterApp_64.dll" then some ⟨[]⟩ else none

/-- C1.  The claim says every actionable event's sample is pushed with
timestamp `consumer_now - (device_now - device_event_time)` (99.5 in the
spec's scenario).  The code instead hands `push_sample` the constant
timestamp `0` (`callback.py`, line 489): with `local_clock` = 100, the
precision clock = 50 and the device store time = 49.5, the single push
carries timestamp 0, while the spec's reconciliation formula yields 99.5. -/
theorem c1_callback_pushes_timestamp_zero :
    pushTimestamps (callback (mkEnv readings1) device0 VPX_DAT_FRESH EYE_A 0 0) = [0]
      ∧ reconcile 100 50 (99 / 2) = 199 / 2
      ∧ (0 : ℚ) ≠ 199 / 2 :=
  ⟨rfl, by norm_num [reconcile], by norm_num⟩

/-- C2, counterexample.  The claim says a fresh-data event whose sub-message
is eye B is actionable and results in a push; on the code, a
`(VPX_DAT_FRESH, EYE_B)` event is filtered out (`callback.py`, line 334
tests `sub_msg == EYE_A.value` only): no device mutation, no accessor call,
no push. -/
theorem c2_b_event_not_actionable :
    callback (mkEnv readings0) device0 VPX_DAT_FRESH EYE_B 0 0 = .ok ⟨device0, [], [], 0⟩ :=
  rfl

/-- C2, amended.  Of an A-event followed by a B-event (both fresh-data),
only the A-event is actionable: it produces exactly one single-sample push
and returns 0, while the B-event returns 0 with zero side effects, so the
pair produces exactly one emission, not two. -/
theorem c2_only_a_events_push (r : VPXReadings) (dA dB : ViewPointDevice) :
    (∃ res, callback (mkEnv r) dA VPX_DAT_FRESH EYE_A 0 0 = .ok res
      ∧ res.pushes.length = 1 ∧ res.ret = 0)
    ∧ callback (mkEnv r) dB VPX_DAT_FRESH EYE_B 0 0 = .ok ⟨dB, [], [], 0⟩ :=
  ⟨⟨_, rfl, rfl, rfl⟩, rfl⟩

/-- C3, counterexample.  The claim says the callback returns 0 even when an
inner call raises, any failure being caught inside the callback.  The body
of `callback` (`callback.py`, lines 332-490) contains no `try`/`except`:
when `push_sample` raises, the exception propagates out of the function
instead of being converted to the neutral status. -/
theorem c3_exception_propagates :
    callback envBadPush device0 VPX_DAT_FRESH EYE_A 0 0
      = .error (.externalError "push_sample failed") :=
  rfl

/-- C3, amended.  Whenever no inner call raises, the callback returns the
neutral status 0 unconditionally, on actionable and non-actionable events
alike; the callback body itself contains no exception handler, so
conversion of a raising call to 0 is left to the foreign-function
trampoline outside this repository. -/
theorem c3_returns_zero_without_exception (r : VPXReadings) (d : ViewPointDevice)
    (msg sub p1 p2 : ℤ) :
    ∃ res, callback (mkEnv r) d msg sub p1 p2 = .ok res ∧ res.ret = 0 := by
  by_cases h : msg = VPX_DAT_FRESH ∧ sub = EYE_A
  · obtain ⟨h1, h2⟩ := h
    subst h1; subst h2
    exact ⟨_, rfl, rfl⟩
  · refine ⟨⟨d, [], [], 0⟩, ?_, rfl⟩
    unfold callback
    rw [if_neg h]

/-- C4.  The claim says every per-eye slot for eye B is filled by an
accessor call with eye selector B, including the four timestamp kinds.  On
an actionable event with store-time readings 7 for selector A and 8 for
selector B, the store-time accessor is invoked twice with selector A and
never with selector B (`callback.py`, line 390 passes `EYE_A` while
writing `DEVICE.store_time["B"]`), so the B slot ends up holding the
selector-A value 7 instead of 8. -/
theorem c4_store_time_b_filled_with_selector_a :
    storeTimeProfile (callback (mkEnv readings2) device0 VPX_DAT_FRESH EYE_A 0 0)
      = (2, 0, 7)
    ∧ readings2.storeTime EYE_B = 8 :=
  ⟨by decide, rfl⟩

/-- C5, counterexample.  The claim says two actionable events with identical
Device State at assembly time yield field-for-field equal samples.  Two
invocations from the same initial state whose accessor readings are
identical — so the Device State at assembly time is identical — but whose
precision-clock readings differ (0 versus 1) produce different samples:
the final `current_time` channel comes from the clock, not from Device
State. -/
theorem c5_same_state_different_clock_sample_differs :
    (callback (mkEnv readings0) device0 VPX_DAT_FRESH EYE_A 0 0).map CallbackResult.device
      = (callback (mkEnv readingsT1) device0 VPX_DAT_FRESH EYE_A 0 0).map CallbackResult.device
    ∧ pushDatas (callback (mkEnv readings0) device0 VPX_DAT_FRESH EYE_A 0 0)
      ≠ pushDatas (callback (mkEnv readingsT1) device0 VPX_DAT_FRESH EYE_A 0 0) :=
  ⟨rfl, by decide⟩

/-- C5, amended.  Given the Device State and the precision-clock reading at
assembly time, the assembled sample is field-for-field determined: for
every channel index, the field at that index is exactly the measurement
named by the corresponding entry of the channel-name list fixed at stream
setup (the final channel, `current_time`, names the clock reading). -/
theorem c5_sample_matches_channel_names (d : ViewPointDevice) (t : ℚ) :
    assemble d t = chNames.map (readChannel d t) :=
  rfl

/-- C6.  Any event whose message kind is not the fresh-data code, or whose
sub-message is not a recognized eye channel (A or B), is filtered out: the
callback performs zero Device State mutations, zero accessor calls and
zero pushes, and returns the neutral status 0, for every environment. -/
theorem c6_filtered_event_no_side_effects (env : VPXEnv) (d : ViewPointDevice)
    (msg sub p1 p2 : ℤ)
    (h : msg ≠ VPX_DAT_FRESH ∨ (sub ≠ EYE_A ∧ sub ≠ EYE_B)) :
    callback env d msg sub p1 p2 = .ok ⟨d, [], [], 0⟩ := by
  have hc : ¬(msg = VPX_DAT_FRESH ∧ sub = EYE_A) := by
    rintro ⟨h1, h2⟩
    rcases h with h | ⟨h3, _⟩
    · exact h h1
    · exact h3 h2
  unfold callback
  rw [if_neg hc]

/-- C6, witness: a message kind of 3 with sub-message 0 leaves the default
device untouched, pushes nothing and returns 0. -/
theorem c6_filtered_event_no_side_effects_witness :
    callback (mkEnv readings0) device0 3 0 0 0 = .ok ⟨device0, [], [], 0⟩ :=
  c6_filtered_event_no_side_effects (mkEnv readings0) device0 3 0 0 0 (Or.inl (by decide))

/-- C7.  A `Buffer` built over any channel list with `bufsize` 4 is not full
after 0, 1, 2 or 3 `add_sample` calls, is full after exactly 4, and `reset`
makes it not full again without raising, leaving the stored rows unchanged:
it only sets the fill index back to 0, which also keeps
`0 <= fill index <= bufsize`. -/
theorem c7_buffer_capacity_four_cycle (names : List String) (d1 d2 d3 d4 : List ℚ)
    (h1 : d1.length = names.length) (h2 : d2.length = names.length)
    (h3 : d3.length = names.length) (h4 : d4.length = names.length) :
    ∃ b1 b2 b3 b4,
      (mkBuffer names 4).add_sample d1 = .ok b1 ∧
      b1.add_sample d2 = .ok b2 ∧
      b2.add_sample d3 = .ok b3 ∧
      b3.add_sample d4 = .ok b4 ∧
      (mkBuffer names 4).is_full = false ∧
      b1.is_full = false ∧ b2.is_full = false ∧ b3.is_full = false ∧
      b4.is_full = true ∧
      b4.reset.is_full = false ∧
      b4.reset.buffer = b4.buffer ∧
      b4.reset.idx = 0 ∧ b4.reset.idx ≤ b4.reset.bufsize := by
  refine ⟨⟨[d1, List.replicate names.length 0, List.replicate names.length 0,
            List.replicate names.length 0], names.length, 1⟩,
          ⟨[d1, d2, List.replicate names.length 0, List.replicate names.length 0],
            names.length, 2⟩,
          ⟨[d1, d2, d3, List.replicate names.length 0], names.length, 3⟩,
          ⟨[d1, d2, d3, d4], names.length, 4⟩,
          ?_, ?_, ?_, ?_, rfl, rfl, rfl, rfl, rfl, rfl, rfl, rfl,
          by norm_num [Buffer.reset, Buffer.bufsize]⟩
  · rw [Buffer.add_sample, if_pos ⟨by norm_num [Buffer.bufsize, mkBuffer], h1⟩]
    simp [mkBuffer, List.replicate, List.set]
  · rw [Buffer.add_sample, if_pos ⟨by norm_num [Buffer.bufsize], h2⟩]
    simp [List.set]
  · rw [Buffer.add_sample, if_pos ⟨by norm_num [Buffer.bufsize], h3⟩]
    simp [List.set]
  · rw [Buffer.add_sample, if_pos ⟨by norm_num [Buffer.bufsize], h4⟩]
    simp [List.set]

/-- C7, witness: one channel, samples `[5]`, `[6]`, `[7]`, `[8]`. -/
theorem c7_buffer_capacity_four_cycle_witness :
    ∃ b1 b2 b3 b4,
      (mkBuffer ["ch"] 4).add_sample [5] = .ok b1 ∧
      b1.add_sample [6] = .ok b2 ∧
      b2.add_sample [7] = .ok b3 ∧
      b3.add_sample [8] = .ok b4 ∧
      (mkBuffer ["ch"] 4).is_full = false ∧
      b1.is_full = false ∧ b2.is_full = false ∧ b3.is_full = false ∧
      b4.is_full = true ∧
      b4.reset.is_full = false ∧
      b4.reset.buffer = b4.buffer ∧
      b4.reset.idx = 0 ∧ b4.reset.idx ≤ b4.reset.bufsize :=
  c7_buffer_capacity_four_cycle ["ch"] [5] [6] [7] [8] rfl rfl rfl rfl

/-- C8.  For each eye in A/B and every `processing` value other than
`raw`, `smoothed` or `corrected`, `get_gaze_point` raises a `ValueError`
whose message names the offending value; the result is a constant error
term, independent of the accessor environment and of the device state, so
no accessor is invoked and no Device State slot is mutated. -/
theorem c8_unknown_processing_fails_fast (env : VPXEnv) (d : ViewPointDevice)
    (eye p : String) (heye : eye = "A" ∨ eye = "B")
    (hp : p ∉ (["raw", "smoothed", "corrected"] : List String)) :
    get_gaze_point env d eye (some p)
      = .error (.valueError (invalidProcessingMsg p)) := by
  simp only [List.mem_cons, List.not_mem_nil, or_false, not_or] at hp
  obtain ⟨hr, hs, hc⟩ := hp
  rcases heye with h | h <;> subst h <;>
    simp [get_gaze_point, pyShow, hr, hs, hc]

/-- C8, witness: eye A with processing `bogus`. -/
theorem c8_unknown_processing_fails_fast_witness :
    get_gaze_point (mkEnv readings0) device0 "A" (some "bogus")
      = .error (.valueError (invalidProcessingMsg "bogus")) :=
  c8_unknown_processing_fails_fast (mkEnv readings0) device0 "A" "bogus"
    (Or.inl rfl) (by decide)

/-- C9, counterexample.  The claim says a warning is logged in both the
malformed and the missing case; on the code, a missing configuration file
returns `(None, None)` with no warning at all (`config.py`, lines 19-20
return before the logging of line 28 is reachable). -/
theorem c9_missing_file_logs_no_warning :
    load_config (fun _ => none) ".lsl-viewpoint" = ((none, none), [])
      ∧ ([] : List String) ≠ [warnBadFormat] :=
  ⟨rfl, by decide⟩

/-- C9, amended.  `load_config` never returns a partial result (one of the
two values is `none` exactly when both are); a missing file yields
`(None, None)` silently, and a file whose `config` section, keys or numeric
sample rate cannot be extracted yields `(None, None)` with the
formatting warning logged. -/
theorem c9_never_partial_warn_on_malformed (fs : FileSys) (fname : String) :
    ((load_config fs fname).1.1 = none ↔ (load_config fs fname).1.2 = none)
    ∧ (fs fname = none → load_config fs fname = ((none, none), []))
    ∧ (∀ cfg, fs fname = some cfg → extractConfig cfg = none →
        load_config fs fname = ((none, none), [warnBadFormat])) := by
  unfold load_config
  rcases h : fs fname with _ | cfg
  · simp
  · rcases hx : extractConfig cfg with _ | pq
    · simp [hx]
    · simp [hx]

/-- C9, witness: a filesystem with no files at all. -/
theorem c9_never_partial_warn_on_malformed_witness :
    load_config (fun _ => none) "missing-file" = ((none, none), []) :=
  (c9_never_partial_warn_on_malformed (fun _ => none) "missing-file").2.1 rfl

/-- C10.  For every existing library path and every sampling rate, writing
the configuration and loading it back returns exactly the stored pair:
`write_config` followed by `load_config` on the same file name yields
`(some path, some sfreq)` with no warning logged. -/
theorem c10_write_then_load_round_trip (fs : FileSys) (path : String)
    (sfreq : ℚ) (fname : String) (h : (fs path).isSome = true) :
    ∃ fs', write_config fs path sfreq fname = .ok fs'
      ∧ load_config fs' fname = ((some path, some sfreq), []) := by
  refine ⟨fun f => if f = fname then
      some ⟨[("config", [("VPX_InterApp_64.dll", .str path), ("sfreq", .num sfreq)])]⟩
    else fs f, ?_, ?_⟩
  · rw [write_config, if_pos h]
  · simp [load_config, extractConfig, lookupSection, lookupEntry, pyStr, pyFloat,
      List.find?]

/-- C10, witness: the DLL path of `fs0` with sampling rate 60 written to
`.lsl-viewpoint`. -/
theorem c10_write_then_load_round_trip_witness :
    ∃ fs', write_config fs0 "/path/to/VPX_InterApp_64.dll" 60 ".lsl-viewpoint" = .ok fs'
      ∧ load_config fs' ".lsl-viewpoint"
          = ((some "/path/to/VPX_InterApp_64.dll", some 60), []) :=
  c10_write_then_load_round_trip fs0 "/path/to/VPX_InterApp_64.dll" 60 ".lsl-viewpoint"
    (by decide)
